import Mathlib

/-!
Verification of the Card Lifecycle & Validation Engine of the
planning-game-xp MCP server.

This file is a shallow embedding, in Lean 4, of the validation logic of
the cards tool module (priority calculator, task/bug status-transition
validators, field-completeness gates, sprint resolution, create/update
pipelines), of `src/tools/commits-validation.js` (commit sub-document
validation and the commit union) and of `src/services/list-service.js`
(controlled-vocabulary lookup with fallback lists).

Modelling conventions:
* JavaScript objects become Lean structures whose fields are `Option`s;
  `none` models a field that is absent, `undefined` or `null` (the source
  treats these alike in every check modelled here, via falsiness).
* JS string truthiness (`""` is falsy) is modelled explicitly where the
  source relies on it.
* The float arithmetic in the priority calculator is modelled with `ℚ`.
  This is exact for the source's inputs: every ratio is `(biz / dev) * 100`
  with `biz`, `dev` small positive integers, IEEE-754 division and
  multiplication are correctly rounded, equal rationals therefore map to
  equal doubles, and distinct rationals of this family differ by at least
  `100 / 169`, far above the rounding error, so every comparison made by
  the source agrees with the comparison of the exact rationals.
* Firebase reads become explicit `Env` fields; an `Option` around a
  collection distinguishes a `null` snapshot from present data.
* Thrown `Error`s become `Except` errors carrying the structured content
  of the message (the names of the missing fields, the offending value);
  the prose around that content is not modelled.
-/

namespace PlanningGame

/-! ### Character-level string primitives

Core `String` functions such as `trim`, `toLower` or `startsWith` are
defined on byte positions and do not reduce in the kernel, so the JS
string operations the source uses are modelled structurally over the
character list.  The lowering/uppering is ASCII (every value the engine
compares this way is ASCII). -/

/-- The whitespace class of JS `\s` and `trim()` (ASCII part). -/
def charIsWs (c : Char) : Bool :=
  c == ' ' || c == '\t' || c == '\n' || c == '\r' || c == '\x0b' || c == '\x0c'

/-- `trim()`. -/
def jsTrim (s : String) : String :=
  ⟨((s.toList.dropWhile charIsWs).reverse.dropWhile charIsWs).reverse⟩

/-- ASCII `toLowerCase()` on one character. -/
def charToLower (c : Char) : Char :=
  if 'A' ≤ c && c ≤ 'Z' then Char.ofNat (c.toNat + 32) else c

/-- `toLowerCase()`. -/
def jsToLower (s : String) : String := ⟨s.toList.map charToLower⟩

/-- ASCII `toUpperCase()` on one character. -/
def charToUpper (c : Char) : Char :=
  if 'a' ≤ c && c ≤ 'z' then Char.ofNat (c.toNat - 32) else c

/-- `toUpperCase()`. -/
def jsToUpper (s : String) : String := ⟨s.toList.map charToUpper⟩

/-- `startsWith(pre)`. -/
def jsStartsWith (s pre : String) : Bool := pre.toList.isPrefixOf s.toList

/-- Lexicographic code-unit comparison of character lists. -/
def charListLe : List Char → List Char → Bool
  | [], _ => true
  | _ :: _, [] => false
  | a :: as, b :: bs =>
    if a.toNat < b.toNat then true
    else if b.toNat < a.toNat then false
    else charListLe as bs

/-- JS `a <= b` on strings (code-unit lexicographic; exact for the
`YYYY-MM-DD` dates compared here). -/
def jsStrLe (a b : String) : Bool := charListLe a.toList b.toList

/-- `/\d/` on one character. -/
def charIsDigit (c : Char) : Bool := '0' ≤ c && c ≤ '9'

/-! ### Priority Calculator (`generatePriorityMap`, `calculatePriority`) -/

/-- One businessPoints × devPoints combination with its Planning-Game ratio,
as pushed by `generatePriorityMap` before sorting. -/
structure PMCombo where
  biz : Nat
  dev : Nat
  ratio : ℚ
deriving DecidableEq, Repr

/-- An entry of a priority map: a combination plus its assigned priority
(1 = highest). -/
structure PMEntry where
  biz : Nat
  dev : Nat
  ratio : ℚ
  priority : Nat
deriving DecidableEq, Repr

/-- Stable insertion of `a` into a list already sorted by ratio descending:
`a` goes in front of the first element whose ratio is `≤ a.ratio`.  Together
with `sortByRatioDesc` this reproduces JavaScript's
`combinations.sort((a, b) => b.ratio - a.ratio)`, which is a stable sort by
ratio descending (ties keep insertion order). -/
def insertByRatioDesc (a : PMCombo) : List PMCombo → List PMCombo
  | [] => [a]
  | b :: l => if b.ratio ≤ a.ratio then a :: b :: l else b :: insertByRatioDesc a l

/-- Stable sort by ratio descending (see `insertByRatioDesc`). -/
def sortByRatioDesc : List PMCombo → List PMCombo
  | [] => []
  | a :: l => insertByRatioDesc a (sortByRatioDesc l)

/-- `generatePriorityMap(scoringSystem)`: all biz × dev combinations of the
scale (`[1,2,3,5,8,13]` for `"fibonacci"`, `[1..5]` otherwise), ratio
`(biz / dev) * 100`, sorted by ratio descending, priorities assigned
`index + 1` in sorted order. -/
def generatePriorityMap (scoringSystem : String) : List PMEntry :=
  let values : List Nat := if scoringSystem = "fibonacci" then [1, 2, 3, 5, 8, 13] else [1, 2, 3, 4, 5]
  let combinations : List PMCombo :=
    values.flatMap (fun biz => values.map (fun dev => ⟨biz, dev, ((biz : ℚ) / (dev : ℚ)) * 100⟩))
  (sortByRatioDesc combinations).enum.map (fun p => ⟨p.2.biz, p.2.dev, p.2.ratio, p.1 + 1⟩)

/-- `PRIORITY_MAP_1_5`: the precomputed map for the 1-5 scale (25 entries). -/
def PRIORITY_MAP_1_5 : List PMEntry := generatePriorityMap "1-5"

/-- `PRIORITY_MAP_FIBONACCI`: the precomputed map for the fibonacci scale
(36 entries). -/
def PRIORITY_MAP_FIBONACCI : List PMEntry := generatePriorityMap "fibonacci"

/-- `calculatePriority(businessPoints, devPoints, scoringSystem)`: `null`
when either input is falsy (zero), otherwise the priority of the first map
entry (in rank order) whose ratio is `≤` the computed ratio, defaulting to
the map length when the ratio is below every entry. -/
def calculatePriority (businessPoints devPoints : Nat) (scoringSystem : String) : Option Nat :=
  if businessPoints = 0 || devPoints = 0 then none
  else
    let ratio : ℚ := ((businessPoints : ℚ) / (devPoints : ℚ)) * 100
    let map := if scoringSystem = "fibonacci" then PRIORITY_MAP_FIBONACCI else PRIORITY_MAP_1_5
    match map.find? (fun e => decide (e.ratio ≤ ratio)) with
    | some e => some e.priority
    | none => some map.length

/-! ### Reference Lookup Service (`list-service.js`)

A loaded list is an association list of text label to numeric order,
mirroring the `{ text: order }` objects; the list order is the JS object
insertion order. -/

/-- `FALLBACK_LISTS.bugPriority`. -/
def FALLBACK_bugPriority : List (String × Nat) :=
  [("APPLICATION BLOCKER", 1), ("DEPARTMENT BLOCKER", 2), ("INDIVIDUAL BLOCKER", 3),
   ("USER EXPERIENCE ISSUE", 4), ("WORKFLOW IMPROVEMENT", 5), ("WORKAROUND AVAILABLE ISSUE", 6)]

/-- `FALLBACK_LISTS.bugStatus`. -/
def FALLBACK_bugStatus : List (String × Nat) :=
  [("Created", 1), ("Assigned", 2), ("Fixed", 3), ("Verified", 4), ("Closed", 5)]

/-- `FALLBACK_LISTS.taskStatus`. -/
def FALLBACK_taskStatus : List (String × Nat) :=
  [("To Do", 1), ("In Progress", 2), ("To Validate", 3), ("Done&Validated", 4),
   ("Blocked", 5), ("Reopened", 6)]

/-- `FALLBACK_LISTS[listType]` (empty object for an unknown type, as in
`getFallbackList`). -/
def FALLBACK_LISTS (listType : String) : List (String × Nat) :=
  if listType = "bugPriority" then FALLBACK_bugPriority
  else if listType = "bugStatus" then FALLBACK_bugStatus
  else if listType = "taskStatus" then FALLBACK_taskStatus
  else []

/-- `LIST_PATHS[listType]`: the RTDB path for each known list type. -/
def LIST_PATHS (listType : String) : Option String :=
  if listType = "bugPriority" then some "/data/bugpriorityList"
  else if listType = "bugStatus" then some "/data/statusList/bug-card"
  else if listType = "taskStatus" then some "/data/statusList/task-card"
  else none

/-- `loadListFromFirebase(listType)`, with the snapshot value made explicit:
`data = none` models a `null`/missing snapshot (and also the path read
failing, which the source catches).  An unknown list type throws; a missing
or empty snapshot silently falls back to the hardcoded list (the source only
logs a warning). -/
def loadListFromFirebase (listType : String) (data : Option (List (String × Nat))) :
    Except String (List (String × Nat)) :=
  match LIST_PATHS listType with
  | none => .error ("Unknown list type: " ++ listType)
  | some _ =>
    match data with
    | some d => if d.length > 0 then .ok d else .ok (FALLBACK_LISTS listType)
    | none => .ok (FALLBACK_LISTS listType)

/-- Stable insertion for `stableSortBy` (insert before the first element
that `a` may precede). -/
def stableInsertBy (le : α → α → Bool) (a : α) : List α → List α
  | [] => [a]
  | b :: l => if le a b then a :: b :: l else b :: stableInsertBy le a l

/-- Stable sort, `le a b` meaning "a may stay in front of b"; reproduces the
stable JS `Array.prototype.sort` with a numeric comparator. -/
def stableSortBy (le : α → α → Bool) : List α → List α
  | [] => []
  | a :: l => stableInsertBy le a (stableSortBy le l)

/-- `getListTexts` applied to loaded data: labels sorted by ascending
order value. -/
def getListTexts (data : List (String × Nat)) : List String :=
  (stableSortBy (fun a b => a.2 ≤ b.2) data).map (·.1)

/-- `isValidValue` applied to loaded data: exact key membership. -/
def isValidValue (data : List (String × Nat)) (value : String) : Bool :=
  data.any (fun p => p.1 == value)

/-- `resolveValue` applied to loaded data: exact key match first, then the
first case-insensitive match, else an error. -/
def resolveValue (data : List (String × Nat)) (value : String) : Except String String :=
  if data.any (fun p => p.1 == value) then .ok value
  else
    match data.find? (fun p => jsToLower p.1 == jsToLower value) with
    | some p => .ok p.1
    | none => .error ("Invalid value " ++ value)

/-! ### Commits (`commits-validation.js`) -/

/-- A commit record.  The source requires all four fields to be non-blank
strings; absent fields are modelled by `""` (both are rejected by the same
falsiness-or-blank test). -/
structure Commit where
  hash : String
  message : String
  date : String
  author : String
deriving DecidableEq, Repr

/-- Blank test used throughout the source:
`!v || (typeof v === 'string' && v.trim() === '')`. -/
def blankStr (s : String) : Bool := jsTrim s == ""

/-- `validateSingleCommit`: the error codes collected for one commit. -/
def validateSingleCommit (commit : Commit) : List String :=
  (if blankStr commit.hash then ["COMMIT_MISSING_HASH"] else []) ++
  (if blankStr commit.message then ["COMMIT_MISSING_MESSAGE"] else []) ++
  (if blankStr commit.date then ["COMMIT_MISSING_DATE"] else []) ++
  (if blankStr commit.author then ["COMMIT_MISSING_AUTHOR"] else [])

/-- `validateCommitsField` on a value that is an array (the typed model
rules out the `COMMITS_NOT_AN_ARRAY` case): an empty array is valid, and
per-commit errors are collected, not fail-fast. -/
def validateCommitsField (commits : List Commit) : Bool × List String :=
  let errors := commits.flatMap validateSingleCommit
  (errors.isEmpty, errors)

/-! ### Card data model

One structure covers current cards and proposed updates: an update is a
partial card, `none` marking a field the update does not touch.  This
mirrors the untyped JS records closely enough for every check the engine
performs on them. -/

/-- One `descriptionStructured` user-story item. -/
structure StoryItem where
  role : Option String := none
  goal : Option String := none
  benefit : Option String := none
deriving DecidableEq, Repr

/-- One `acceptanceCriteriaStructured` scenario (Gherkin or raw). -/
structure Scenario where
  given : Option String := none
  when : Option String := none
  then' : Option String := none
  raw : Option String := none
deriving DecidableEq, Repr

/-- One implementation-plan step. -/
structure PlanStep where
  description : Option String := none
  files : Option String := none
  status : Option String := none
deriving DecidableEq, Repr

/-- A structured implementation plan. -/
structure Plan where
  approach : Option String := none
  steps : Option (List PlanStep) := none
  dataModelChanges : Option String := none
  apiChanges : Option String := none
  risks : Option String := none
  outOfScope : Option String := none
  planStatus : Option String := none
deriving DecidableEq, Repr

/-- The `implementationPlan` field is either a structured plan object or a
legacy free-text string. -/
inductive PlanVal
  | obj (p : Plan)
  | str (s : String)
deriving DecidableEq, Repr

/-- A task `priority` is a calculated rank (number); bugs/epics carry a
label (string). -/
inductive PriorityVal
  | str (s : String)
  | num (n : Nat)
deriving DecidableEq, Repr

/-- A card record (also used for partial updates, `none` = absent). -/
structure Card where
  cardId : Option String := none
  firebaseId : Option String := none
  cardType : Option String := none
  group : Option String := none
  projectId : Option String := none
  title : Option String := none
  description : Option String := none
  status : Option String := none
  priority : Option PriorityVal := none
  developer : Option String := none
  codeveloper : Option String := none
  validator : Option String := none
  stakeholder : Option String := none
  epic : Option String := none
  sprint : Option String := none
  devPoints : Option Nat := none
  businessPoints : Option Nat := none
  acceptanceCriteria : Option String := none
  acceptanceCriteriaStructured : Option (List Scenario) := none
  descriptionStructured : Option (List StoryItem) := none
  commits : Option (List Commit) := none
  implementationPlan : Option PlanVal := none
  startDate : Option String := none
  endDate : Option String := none
  blockedByBusiness : Option Bool := none
  blockedByDevelopment : Option Bool := none
  bbbWhy : Option String := none
  bbbWho : Option String := none
  bbdWhy : Option String := none
  bbdWho : Option String := none
  rootCause : Option String := none
  resolution : Option String := none
  registerDate : Option String := none
  year : Option Nat := none
  createdAt : Option String := none
  createdBy : Option String := none
  updatedAt : Option String := none
  updatedBy : Option String := none
deriving DecidableEq, Repr

/-- The JS spread `{ ...current, ...updates }`: each field of `updates`
that is present overwrites the current one. -/
def mergeCard (cur upd : Card) : Card where
  cardId := upd.cardId <|> cur.cardId
  firebaseId := upd.firebaseId <|> cur.firebaseId
  cardType := upd.cardType <|> cur.cardType
  group := upd.group <|> cur.group
  projectId := upd.projectId <|> cur.projectId
  title := upd.title <|> cur.title
  description := upd.description <|> cur.description
  status := upd.status <|> cur.status
  priority := upd.priority <|> cur.priority
  developer := upd.developer <|> cur.developer
  codeveloper := upd.codeveloper <|> cur.codeveloper
  validator := upd.validator <|> cur.validator
  stakeholder := upd.stakeholder <|> cur.stakeholder
  epic := upd.epic <|> cur.epic
  sprint := upd.sprint <|> cur.sprint
  devPoints := upd.devPoints <|> cur.devPoints
  businessPoints := upd.businessPoints <|> cur.businessPoints
  acceptanceCriteria := upd.acceptanceCriteria <|> cur.acceptanceCriteria
  acceptanceCriteriaStructured := upd.acceptanceCriteriaStructured <|> cur.acceptanceCriteriaStructured
  descriptionStructured := upd.descriptionStructured <|> cur.descriptionStructured
  commits := upd.commits <|> cur.commits
  implementationPlan := upd.implementationPlan <|> cur.implementationPlan
  startDate := upd.startDate <|> cur.startDate
  endDate := upd.endDate <|> cur.endDate
  blockedByBusiness := upd.blockedByBusiness <|> cur.blockedByBusiness
  blockedByDevelopment := upd.blockedByDevelopment <|> cur.blockedByDevelopment
  bbbWhy := upd.bbbWhy <|> cur.bbbWhy
  bbbWho := upd.bbbWho <|> cur.bbbWho
  bbdWhy := upd.bbdWhy <|> cur.bbdWhy
  bbdWho := upd.bbdWho <|> cur.bbdWho
  rootCause := upd.rootCause <|> cur.rootCause
  resolution := upd.resolution <|> cur.resolution
  registerDate := upd.registerDate <|> cur.registerDate
  year := upd.year <|> cur.year
  createdAt := upd.createdAt <|> cur.createdAt
  createdBy := upd.createdBy <|> cur.createdBy
  updatedAt := upd.updatedAt <|> cur.updatedAt
  updatedBy := upd.updatedBy <|> cur.updatedBy

/-- `appendCommitsToCard(currentCard, newCommits)`: returns the existing
commits when no new ones are supplied, else appends only the new commits
whose hash is not already present (existing entries win). -/
def appendCommitsToCard (currentCard : Card) (newCommits : List Commit) : List Commit :=
  let existingCommits := currentCard.commits.getD []
  if newCommits.isEmpty then existingCommits
  else
    let existingHashes := existingCommits.map Commit.hash
    let commitsToAdd := newCommits.filter (fun c => !(existingHashes.contains c.hash))
    existingCommits ++ commitsToAdd

/-! ### Vocabularies, entity IDs and field-completeness (`cards.js`) -/

/-- `VALID_TASK_PRIORITIES` (only used to validate a directly supplied
label before the direct-priority rejection). -/
def VALID_TASK_PRIORITIES : List String := ["High", "Medium", "Low"]

/-- `VALIDATOR_ONLY_STATUSES`: statuses the MCP may never set. -/
def VALIDATOR_ONLY_STATUSES : List String := ["Done&Validated"]

/-- `VALID_ID_PREFIXES`, in the source's key order. -/
def VALID_ID_PREFIXES : List (String × String) :=
  [("developer", "dev_"), ("codeveloper", "dev_"), ("validator", "stk_"), ("stakeholder", "stk_")]

/-- JS truthiness of an optional string field (absent, `null` and `""` are
falsy). -/
def truthyStr (o : Option String) : Bool :=
  match o with
  | some s => s ≠ ""
  | none => false

/-- The entity-reference field of a card named by one of the
`VALID_ID_PREFIXES` keys. -/
def entityField (data : Card) (field : String) : Option String :=
  if field = "developer" then data.developer
  else if field = "codeveloper" then data.codeveloper
  else if field = "validator" then data.validator
  else if field = "stakeholder" then data.stakeholder
  else none

/-- `validateEntityIds(data)`: for each reference field that is present,
empty values pass and a non-empty value must start with the field's
prefix; the first offender throws (field and value are carried). -/
def validateEntityIds (data : Card) : Except (String × String) Unit :=
  match VALID_ID_PREFIXES.find? (fun p =>
      match entityField data p.1 with
      | some v => v ≠ "" && !(jsStartsWith v p.2)
      | none => false) with
  | some p => .error (p.1, (entityField data p.1).getD "")
  | none => .ok ()

/-- `REQUIRED_FIELDS_TO_LEAVE_TODO`, as source field names. -/
def REQUIRED_FIELDS_TO_LEAVE_TODO : List String :=
  ["title", "developer", "validator", "epic", "sprint", "devPoints", "businessPoints",
   "acceptanceCriteria"]

/-- The string/value branch of `hasValidValue`: not null/undefined, and a
string must have non-blank trim. -/
def strHasValue (o : Option String) : Bool :=
  match o with
  | some s => jsTrim s ≠ ""
  | none => false

/-- A structured acceptance scenario "has content" when one of its four
fields is a non-blank string. -/
def scenarioHasContent (sc : Scenario) : Bool :=
  strHasValue sc.given || strHasValue sc.when || strHasValue sc.then' || strHasValue sc.raw

/-- `hasValidValue(data, field)`: the special acceptance-criteria and
numeric-points cases, then the standard check.  Fields that never occur in
a required set fall through to the standard string check. -/
def hasValidValue (data : Card) (field : String) : Bool :=
  if field = "acceptanceCriteria" then
    (match data.acceptanceCriteria with
     | some ac => ac ≠ "" && jsTrim ac ≠ ""
     | none => false) ||
    (match data.acceptanceCriteriaStructured with
     | some acs => acs.length > 0 && acs.any scenarioHasContent
     | none => false)
  else if field = "devPoints" then
    match data.devPoints with
    | some n => n > 0
    | none => false
  else if field = "businessPoints" then
    match data.businessPoints with
    | some n => n > 0
    | none => false
  else if field = "title" then strHasValue data.title
  else if field = "developer" then strHasValue data.developer
  else if field = "validator" then strHasValue data.validator
  else if field = "epic" then strHasValue data.epic
  else if field = "sprint" then strHasValue data.sprint
  else if field = "startDate" then strHasValue data.startDate
  else if field = "bbbWhy" then strHasValue data.bbbWhy
  else if field = "bbbWho" then strHasValue data.bbbWho
  else if field = "bbdWhy" then strHasValue data.bbdWhy
  else if field = "bbdWho" then strHasValue data.bbdWho
  else false

/-- The `friendlyNames` map used in the missing-field messages (identity on
fields outside the map). -/
def friendlyName (field : String) : String :=
  if field = "acceptanceCriteria" then "Acceptance Criteria"
  else if field = "devPoints" then "Dev Points"
  else if field = "businessPoints" then "Business Points"
  else if field = "epic" then "Epic"
  else if field = "sprint" then "Sprint"
  else if field = "developer" then "Developer"
  else if field = "validator" then "Validator"
  else if field = "title" then "Title"
  else field

/-- `(currentStatus || '').toLowerCase().replace(/\s+/g, '')`. -/
def normalizeStatus (s : String) : String :=
  ⟨(jsToLower s).toList.filter (fun c => !charIsWs c)⟩

/-! ### Task status-transition validation (`validateStatusTransition`) -/

/-- The structured content of the errors `validateStatusTransition` can
throw. -/
inductive TaskTransitionError
  | validatorOnly (newStatus : String)
  | missingToLeaveTodo (newStatus : String) (friendlyMissing : List String)
  | blockedNeedsFlag
  | blockedMissingFields (missing : List String)
  | toValidateMissing (missing : List String)
deriving DecidableEq, Repr

/-- The `newStatus === 'Blocked'` block of `validateStatusTransition`:
at least one blocker flag, then the matching why/who pairs. -/
def checkBlocked (finalCard : Card) (newStatus : String) : Except TaskTransitionError Unit :=
  if newStatus ≠ "Blocked" then .ok ()
  else
    let blockedByBusiness := finalCard.blockedByBusiness.getD false
    let blockedByDevelopment := finalCard.blockedByDevelopment.getD false
    if !blockedByBusiness && !blockedByDevelopment then .error .blockedNeedsFlag
    else
      let missing :=
        (if blockedByBusiness then
          (if hasValidValue finalCard "bbbWhy" then [] else ["bbbWhy (reason for business block)"]) ++
          (if hasValidValue finalCard "bbbWho" then [] else ["bbbWho (who is blocking)"])
         else []) ++
        (if blockedByDevelopment then
          (if hasValidValue finalCard "bbdWhy" then [] else ["bbdWhy (reason for development block)"]) ++
          (if hasValidValue finalCard "bbdWho" then [] else ["bbdWho (who is blocking)"])
         else [])
      if missing.isEmpty then .ok () else .error (.blockedMissingFields missing)

/-- The `newStatus === 'To Validate'` block of `validateStatusTransition`:
startDate, a non-empty commits list, and the base required set again, all
reported together. -/
def checkToValidate (finalCard : Card) (newStatus : String) : Except TaskTransitionError Unit :=
  if newStatus ≠ "To Validate" then .ok ()
  else
    let m1 := if hasValidValue finalCard "startDate" then []
              else ["startDate (when work started)"]
    let hasCommits := (finalCard.commits.getD []).length > 0
    let m2 := if hasCommits then []
              else ["commits (at least one commit with hash, message, date, author)"]
    let m3 := (REQUIRED_FIELDS_TO_LEAVE_TODO.filter (fun f => !hasValidValue finalCard f)).map friendlyName
    let missing := m1 ++ m2 ++ m3
    if missing.isEmpty then .ok () else .error (.toValidateMissing missing)

/-- `validateStatusTransition(currentCard, updates, type)`: skip non-tasks,
absent/falsy or unchanged status; reject validator-only targets; then the
leave-To-Do gate on the merged record, the Blocked gate, and the
To-Validate gate, in source order (first failure throws). -/
def validateStatusTransition (currentCard updates : Card) (ty : String) :
    Except TaskTransitionError Unit :=
  if ty ≠ "task" then .ok ()
  else
    match updates.status with
    | none => .ok ()
    | some newStatus =>
      if newStatus = "" then .ok ()
      else if currentCard.status = some newStatus then .ok ()
      else if VALIDATOR_ONLY_STATUSES.contains newStatus then .error (.validatorOnly newStatus)
      else
        let finalCard := mergeCard currentCard updates
        let normalizedCurrentStatus := normalizeStatus (currentCard.status.getD "")
        let missingTodo :=
          if normalizedCurrentStatus = "todo" && newStatus ≠ "To Do" then
            REQUIRED_FIELDS_TO_LEAVE_TODO.filter (fun f => !hasValidValue finalCard f)
          else []
        if !missingTodo.isEmpty then
          .error (.missingToLeaveTodo newStatus (missingTodo.map friendlyName))
        else
          match checkBlocked finalCard newStatus with
          | .error e => .error e
          | .ok () => checkToValidate finalCard newStatus

/-! ### Bug status-transition validation (`validateBugStatusTransition`) -/

/-- `REQUIRED_FIELDS_TO_CLOSE_BUG`. -/
def REQUIRED_FIELDS_TO_CLOSE_BUG : List String := ["commits", "rootCause", "resolution"]

/-- The one error `validateBugStatusTransition` can throw, carrying the
itemized missing-field phrases of its message. -/
inductive BugTransitionError
  | cannotClose (missing : List String)
deriving DecidableEq, Repr

/-- The blank test applied to `rootCause`/`resolution`:
`!v || (typeof v === 'string' && v.trim() === '')`. -/
def blankOpt (o : Option String) : Bool :=
  match o with
  | some s => jsTrim s == ""
  | none => true

/-- `validateBugStatusTransition(currentBug, updates)`: no check unless a
non-falsy status is proposed that differs from the current one and equals
`'Closed'`; closing requires non-empty commits, non-blank rootCause and
non-blank resolution on the merged record, reporting exactly the missing
ones. -/
def validateBugStatusTransition (currentBug updates : Card) : Except BugTransitionError Unit :=
  match updates.status with
  | none => .ok ()
  | some newStatus =>
    if newStatus = "" then .ok ()
    else if currentBug.status = some newStatus then .ok ()
    else if newStatus ≠ "Closed" then .ok ()
    else
      let finalBug := mergeCard currentBug updates
      let hasCommits := (finalBug.commits.getD []).length > 0
      let m1 := if hasCommits then [] else ["commits (list of commits that fixed the bug)"]
      let m2 := if blankOpt finalBug.rootCause then ["rootCause (why the bug occurred)"] else []
      let m3 := if blankOpt finalBug.resolution then ["resolution (how the bug was fixed)"] else []
      let missingFields := m1 ++ m2 ++ m3
      if missingFields.isEmpty then .ok () else .error (.cannotClose missingFields)

/-! ### Static vocabularies and the transition-rules table -/

/-- `VALID_BUG_STATUSES`. -/
def VALID_BUG_STATUSES : List String := ["Created", "Assigned", "Fixed", "Verified", "Closed"]

/-- `VALID_TASK_STATUSES`. -/
def VALID_TASK_STATUSES : List String :=
  ["To Do", "In Progress", "To Validate", "Done&Validated", "Blocked", "Reopened"]

/-- `REQUIRED_FIELDS_FOR_TO_VALIDATE`. -/
def REQUIRED_FIELDS_FOR_TO_VALIDATE : List String := ["startDate", "commits"]

/-- `VALID_STEP_STATUSES`. -/
def VALID_STEP_STATUSES : List String := ["pending", "in_progress", "done"]

/-- `VALID_PLAN_STATUSES`. -/
def VALID_PLAN_STATUSES : List String := ["pending", "proposed", "validated", "in_progress", "completed"]

/-- One entry of `TASK_TRANSITION_RULES`. -/
structure TransitionRule where
  allowedTransitions : List String
  requirements : List (String × List String) := []
  mcpRestrictions : List String := []
deriving DecidableEq, Repr

/-- `TASK_TRANSITION_RULES`: the transition table served by
`get_transition_rules` (informational notes are not modelled). -/
def TASK_TRANSITION_RULES : List (String × TransitionRule) :=
  [("To Do",
    { allowedTransitions := ["In Progress", "Blocked"],
      requirements :=
        [("In Progress", REQUIRED_FIELDS_TO_LEAVE_TODO),
         ("Blocked", REQUIRED_FIELDS_TO_LEAVE_TODO ++
            ["blockedByBusiness OR blockedByDevelopment", "bbbWhy/bbbWho OR bbdWhy/bbdWho"])] }),
   ("In Progress",
    { allowedTransitions := ["To Validate", "Blocked", "To Do"],
      requirements :=
        [("To Validate", REQUIRED_FIELDS_TO_LEAVE_TODO ++ REQUIRED_FIELDS_FOR_TO_VALIDATE),
         ("Blocked", ["blockedByBusiness OR blockedByDevelopment", "bbbWhy/bbbWho OR bbdWhy/bbdWho"]),
         ("To Do", [])] }),
   ("To Validate",
    { allowedTransitions := ["Reopened"], mcpRestrictions := ["Done&Validated"] }),
   ("Blocked", { allowedTransitions := ["In Progress", "To Do"] }),
   ("Reopened",
    { allowedTransitions := ["In Progress", "To Validate"],
      requirements :=
        [("To Validate", REQUIRED_FIELDS_TO_LEAVE_TODO ++ REQUIRED_FIELDS_FOR_TO_VALIDATE)] }),
   ("Done&Validated", { allowedTransitions := [] })]

/-! ### Sprints and the environment (`getActiveSprint`, `validateSprintExists`)

`Env` gathers the Firebase snapshots and ambient values (today's date, the
MCP user) that the pipelines read; an `Option` around a collection is
`none` for a `null` snapshot. -/

/-- A sprint record as mapped by `getActiveSprint`
(`{ firebaseId, ...sprint }`). -/
structure SprintCard where
  firebaseId : String := ""
  cardId : Option String := none
  title : Option String := none
  status : Option String := none
  startDate : Option String := none
  endDate : Option String := none
deriving DecidableEq, Repr

/-- A stakeholder directory record (`/data/stakeholders/<id>`). -/
structure StakeholderRec where
  name : Option String := none
  email : Option String := none
  active : Option Bool := none
deriving DecidableEq, Repr

/-- An epic record as summarized for availability lists. -/
structure EpicRec where
  cardId : Option String := none
  title : Option String := none
  status : Option String := none
deriving DecidableEq, Repr

/-- The Firebase snapshots and ambient values consumed by the card
pipelines.  List-valued snapshots keep the stored object's insertion
order. -/
structure Env where
  sprintsData : Option (List SprintCard) := none
  epicsData : Option (List EpicRec) := none
  stakeholdersData : List (String × StakeholderRec) := []
  projectStkIds : List String := []
  developersEmail : List (String × Option String) := []
  projectAbbr : Option String := none
  lastId : Nat := 0
  newKey : String := ""
  scoringSystem : Option String := none
  mcpUserDeveloperId : Option String := none
  taskStatusData : Option (List (String × Nat)) := none
  bugStatusData : Option (List (String × Nat)) := none
  bugPriorityData : Option (List (String × Nat)) := none
  today : String := ""
  nowIso : String := ""
  currentYear : Nat := 0

/-- `getActiveSprint(projectId)`: first the first sprint whose status is
`Active` or `In Progress`, then the first sprint whose
`[startDate, endDate]` contains today (string comparison of `YYYY-MM-DD`
dates), else `null`. -/
def getActiveSprint (env : Env) : Option SprintCard :=
  match env.sprintsData with
  | none => none
  | some sprints =>
    match sprints.find? (fun s => s.status == some "Active" || s.status == some "In Progress") with
    | some s => some s
    | none =>
      sprints.find? (fun s =>
        match s.startDate, s.endDate with
        | some sd, some ed =>
          sd ≠ "" && ed ≠ "" && jsStrLe sd env.today && jsStrLe env.today ed
        | _, _ => false)

/-- The errors `validateSprintExists` can throw. -/
inductive SprintExistsError
  | noSprints
  | notFound (sprint : String) (available : List (String × String))
deriving DecidableEq, Repr

/-- `validateSprintExists(projectId, sprint)`: a falsy sprint always
passes; a `null` sprints snapshot fails with the no-sprints error; an
unknown cardId fails listing every sprint's id and title. -/
def validateSprintExists (env : Env) (sprint : Option String) : Except SprintExistsError Unit :=
  if !truthyStr sprint then .ok ()
  else
    match env.sprintsData with
    | none => .error .noSprints
    | some sprintsData =>
      if sprintsData.any (fun s => s.cardId == sprint) then .ok ()
      else .error (.notFound (sprint.getD "")
        (sprintsData.map (fun s => (s.cardId.getD "", s.title.getD ""))))

/-! ### Implementation-plan migration and validation -/

/-- JS truthiness of the `implementationPlan` field (objects are truthy,
the empty string is not). -/
def truthyPlanVal (o : Option PlanVal) : Bool :=
  match o with
  | some (.obj _) => true
  | some (.str s) => s ≠ ""
  | none => false

/-- `plan.planStatus` read through the `PlanVal` wrapper (`undefined` on a
legacy string). -/
def planStatusOf (o : Option PlanVal) : Option String :=
  match o with
  | some (.obj p) => p.planStatus
  | _ => none

/-- `migrateImplementationPlan(plan)`: falsy values map to `null`, objects
pass through, and a string with non-blank trim becomes a structured plan
with `planStatus: 'proposed'` (a blank string reaches the final
`return null`). -/
def migrateImplementationPlan (plan : Option PlanVal) : Option Plan :=
  match plan with
  | none => none
  | some (.obj p) => some p
  | some (.str s) =>
    if jsTrim s ≠ "" then
      some { approach := some s, steps := some [], dataModelChanges := some "",
             apiChanges := some "", risks := some "", outOfScope := some "",
             planStatus := some "proposed" }
    else none

/-- `validateImplementationPlan(plan)`: non-objects are valid; an object
needs a non-blank approach, a known `planStatus` when one is given, and
each step needs a non-blank description and a known status when one is
given.  Errors are collected (codes stand for the messages). -/
def validateImplementationPlan (plan : Option PlanVal) : Bool × List String :=
  match plan with
  | none => (true, [])
  | some (.str _) => (true, [])
  | some (.obj p) =>
    let e1 := if blankOpt p.approach then ["MISSING_APPROACH"] else []
    let e2 := match p.planStatus with
      | some ps => if ps ≠ "" && !(VALID_PLAN_STATUSES.contains ps) then ["INVALID_PLAN_STATUS"] else []
      | none => []
    let e3 := match p.steps with
      | none => []
      | some steps =>
        steps.flatMap (fun step =>
          (if blankOpt step.description then ["MISSING_STEP_DESCRIPTION"] else []) ++
          (match step.status with
           | some ss => if ss ≠ "" && !(VALID_STEP_STATUSES.contains ss) then ["INVALID_STEP_STATUS"] else []
           | none => []))
    let errors := e1 ++ e2 ++ e3
    (errors.isEmpty, errors)

/-! ### Type defaults (`TYPE_DEFAULTS`, `applyTypeDefaults`) -/

/-- `TYPE_DEFAULTS[type]` as a `(status, priority)` pair. -/
def TYPE_DEFAULTS (ty : String) : Option (String × String) :=
  if ty = "bug" then some ("Created", "User Experience Issue")
  else if ty = "task" then some ("To Do", "Medium")
  else if ty = "epic" then some ("To Do", "Medium")
  else if ty = "proposal" then some ("To Do", "Medium")
  else if ty = "qa" then some ("To Do", "Medium")
  else none

/-- JS truthiness of an optional priority value (`""` and `0` are falsy). -/
def truthyPriority (o : Option PriorityVal) : Bool :=
  match o with
  | some (.str s) => s ≠ ""
  | some (.num n) => n ≠ 0
  | none => false

/-- `applyTypeDefaults(type, data)`: fill a falsy status and priority from
the type defaults, and stamp `registerDate` (today) on bugs.  `today` is
passed explicitly (the source calls `new Date()`). -/
def applyTypeDefaults (today : String) (ty : String) (data : Card) : Card :=
  let defaults := TYPE_DEFAULTS ty
  let r1 := if !truthyStr data.status then { data with status := defaults.map (·.1) } else data
  let r2 := if !truthyPriority r1.priority then
      { r1 with priority := defaults.map (fun d => PriorityVal.str d.2) } else r1
  if ty = "bug" && !truthyStr r2.registerDate then { r2 with registerDate := some today } else r2

/-! ### Type-specific field validation (`validateBugFields`, `validateTaskFields`) -/

/-- The snapshot backing a list type in the environment. -/
def envListData (env : Env) (listType : String) : Option (List (String × Nat)) :=
  if listType = "bugPriority" then env.bugPriorityData
  else if listType = "bugStatus" then env.bugStatusData
  else if listType = "taskStatus" then env.taskStatusData
  else none

/-- `getList(listType)` for a known list type (the cache is transparent:
reloading is idempotent). -/
def getList (env : Env) (listType : String) : List (String × Nat) :=
  match loadListFromFirebase listType (envListData env listType) with
  | .ok d => d
  | .error _ => []

/-- The structured content of every error the update pipeline can throw. -/
inductive UpdateError
  | protectedField (field : String)
  | invalidEntityId (field : String) (value : String)
  | invalidBugStatus (value : String) (valid : List String)
  | invalidBugPriority (value : PriorityVal) (valid : List String)
  | invalidTaskStatus (value : String) (valid : List String)
  | invalidTaskPriority (value : PriorityVal)
  | taskTransition (e : TaskTransitionError)
  | bugTransition (e : BugTransitionError)
  | directPriorityNotAllowed
  | noSprintsInProject
  | sprintNotFound (sprint : String) (available : List (String × String))
  | invalidCommits (errors : List String)
  | invalidPlan (errors : List String)
deriving DecidableEq, Repr

/-- `validateBugFields(data)`: resolve a provided status against the bug
status list and a provided priority against the bug priority list
(case-insensitively), writing the canonical value back; a failed
resolution throws listing the valid values.  A numeric priority cannot
resolve (the source would hit the same catch). -/
def validateBugFields (env : Env) (data : Card) : Except UpdateError Card :=
  match
    (match data.status with
     | none => Except.ok data
     | some s =>
       match resolveValue (getList env "bugStatus") s with
       | .ok v => Except.ok { data with status := some v }
       | .error _ => Except.error (UpdateError.invalidBugStatus s (getListTexts (getList env "bugStatus")))) with
  | .error e => .error e
  | .ok d1 =>
    match d1.priority with
    | none => .ok d1
    | some (.str s) =>
      match resolveValue (getList env "bugPriority") s with
      | .ok v => .ok { d1 with priority := some (.str v) }
      | .error _ => .error (.invalidBugPriority (.str s) (getListTexts (getList env "bugPriority")))
    | some (.num n) => .error (.invalidBugPriority (.num n) (getListTexts (getList env "bugPriority")))

/-- `validateTaskFields(data)`: resolve a provided status against the task
status list (case-insensitively, canonical value written back); a provided
priority must be one of the `VALID_TASK_PRIORITIES` labels. -/
def validateTaskFields (env : Env) (data : Card) : Except UpdateError Card :=
  match
    (match data.status with
     | none => Except.ok data
     | some s =>
       match resolveValue (getList env "taskStatus") s with
       | .ok v => Except.ok { data with status := some v }
       | .error _ => Except.error (UpdateError.invalidTaskStatus s (getListTexts (getList env "taskStatus")))) with
  | .error e => .error e
  | .ok d1 =>
    match d1.priority with
    | none => .ok d1
    | some (.str s) =>
      if VALID_TASK_PRIORITIES.contains s then .ok d1
      else .error (.invalidTaskPriority (.str s))
    | some (.num n) => .error (.invalidTaskPriority (.num n))

/-! ### The update pipeline (`updateCard`, apply mode)

The validate-only branch returns an aggregated report instead of throwing;
only the apply branch (the default) is modelled here.  The card-not-found
check is implicit: the model takes the current card as input. -/

/-- The protected fields present in the update, in source order. -/
def protectedFieldsInUpdate (updates : Card) : List String :=
  (if updates.cardId.isSome then ["cardId"] else []) ++
  (if updates.firebaseId.isSome then ["firebaseId"] else []) ++
  (if updates.cardType.isSome then ["cardType"] else []) ++
  (if updates.group.isSome then ["group"] else []) ++
  (if updates.projectId.isSome then ["projectId"] else [])

/-- The codeveloper auto-assignment when the AI developer `dev_016` is set:
the MCP user's developer id, when it exists, is truthy and is not
`dev_016` itself, fills an empty codeveloper. -/
def autoAssignCodeveloper (env : Env) (updates : Card) : Card :=
  if updates.developer == some "dev_016" then
    match env.mcpUserDeveloperId with
    | some d =>
      if !truthyStr updates.codeveloper && d ≠ "" && d ≠ "dev_016" then
        { updates with codeveloper := some d }
      else updates
    | none => updates
  else updates

/-- `a || b` on strings. -/
def jsOrStr (a b : String) : String := if a ≠ "" then a else b

/-- `a || b` on numbers (zero is falsy). -/
def jsOrNat (a b : Nat) : Nat := if a ≠ 0 then a else b

/-- Set `planStatus` on the plan the source is about to store back into the
update.  A legacy string cannot reach this point through the pipeline
(non-blank strings were migrated to objects one step earlier, blank ones
are not truthy), so the string branch is the identity. -/
def setPlanStatus (pv : PlanVal) (st : String) : PlanVal :=
  match pv with
  | .obj p => .obj { p with planStatus := some st }
  | .str s => .str s

/-- The planStatus-transition block of `updateCard` (run on tasks with a
truthy proposed status): warnings for a missing or unvalidated plan when
entering In Progress, auto-advance `validated → in_progress` there,
auto-advance to `completed` and remind about versioning when entering
To Validate.  Returns the possibly rewritten update and the warning
codes. -/
def planStatusStep (currentCard updates : Card) : Card × List String :=
  match updates.status with
  | none => (updates, [])
  | some newStatus =>
    if newStatus = "" then (updates, [])
    else
      let currentPlanVal : Option PlanVal :=
        if truthyPlanVal updates.implementationPlan then updates.implementationPlan
        else (migrateImplementationPlan currentCard.implementationPlan).map PlanVal.obj
      let devPoints := jsOrNat (updates.devPoints.getD 0) (currentCard.devPoints.getD 0)
      if newStatus = "In Progress" then
        let w1 := if devPoints ≥ 3 && !truthyPlanVal currentPlanVal then
            ["MISSING_IMPLEMENTATION_PLAN"] else []
        let w2 := if truthyPlanVal currentPlanVal && planStatusOf currentPlanVal == some "proposed" then
            ["PLAN_NOT_VALIDATED"] else []
        let upd :=
          match currentPlanVal with
          | some pv =>
            if truthyPlanVal (some pv) && planStatusOf (some pv) == some "validated" then
              { updates with implementationPlan := some (setPlanStatus pv "in_progress") }
            else updates
          | none => updates
        (upd, w1 ++ w2)
      else if newStatus = "To Validate" then
        let upd :=
          match currentPlanVal with
          | some pv =>
            if truthyPlanVal (some pv) && planStatusOf (some pv) ≠ some "completed" then
              { updates with implementationPlan := some (setPlanStatus pv "completed") }
            else updates
          | none => updates
        (upd, ["VERSION_REMINDER"])
      else (updates, [])

/-- The sprint auto-assignment block of `updateCard`: when a task with a
truthy proposed status leaves To Do and neither the update nor the card
carries a sprint, the active sprint's cardId (when one exists) is written
into the update.  (This block runs after `validateStatusTransition`.) -/
def sprintAutoAssignStep (env : Env) (currentCard updates : Card) : Card :=
  match updates.status with
  | none => updates
  | some newStatus =>
    if newStatus = "" then updates
    else
      let currentStatus := normalizeStatus (currentCard.status.getD "")
      if currentStatus = "todo" && newStatus ≠ "To Do" then
        let hasSprint := truthyStr updates.sprint || truthyStr currentCard.sprint
        if !hasSprint then
          match getActiveSprint env with
          | some s => { updates with sprint := s.cardId }
          | none => updates
        else updates
      else updates

/-- The startDate block of `updateCard`: a task moving to In Progress with
no truthy startDate anywhere gets today's date. -/
def startDateStep (env : Env) (currentCard updates : Card) : Card :=
  if updates.status == some "In Progress" then
    if !(truthyStr updates.startDate || truthyStr currentCard.startDate) then
      { updates with startDate := some env.today }
    else updates
  else updates

/-- The priority block of `updateCard`: when both point values are
resolvable (update first, else card) and truthy, the priority is
recalculated with the project's scoring system. -/
def priorityStep (env : Env) (currentCard updates : Card) : Card :=
  let finalDevPoints := match updates.devPoints with
    | some n => some n
    | none => currentCard.devPoints
  let finalBizPoints := match updates.businessPoints with
    | some n => some n
    | none => currentCard.businessPoints
  if finalDevPoints.getD 0 ≠ 0 && finalBizPoints.getD 0 ≠ 0 then
    let scoringSystem := jsOrStr (env.scoringSystem.getD "") "1-5"
    match calculatePriority (finalBizPoints.getD 0) (finalDevPoints.getD 0) scoringSystem with
    | some p => { updates with priority := some (.num p) }
    | none => updates
  else updates

/-- `updateCard` (apply mode): protected fields, codeveloper
auto-assignment, entity-id validation, type-specific validation (bug:
vocabularies then the closing gate; task: vocabularies, the transition
gates, the direct-priority rejection, sprint existence), commit
validation and union, plan migration/validation, planStatus transitions
and warnings, the bug versioning reminder, sprint auto-assignment,
startDate auto-set, priority recalculation, metadata; the merged card and
the warnings are returned. -/
def updateCard (env : Env) (ty : String) (currentCard updates0 : Card) :
    Except UpdateError (Card × List String) := do
  match (protectedFieldsInUpdate updates0).head? with
  | some f => throw (.protectedField f)
  | none => pure ()
  let updates1 := autoAssignCodeveloper env updates0
  match validateEntityIds updates1 with
  | .error fv => throw (.invalidEntityId fv.1 fv.2)
  | .ok () => pure ()
  let updates2 ←
    if ty = "bug" then do
      let d ← validateBugFields env updates1
      match validateBugStatusTransition currentCard d with
      | .error e => throw (.bugTransition e)
      | .ok () => pure ()
      pure d
    else if ty = "task" then do
      let d ← validateTaskFields env updates1
      match validateStatusTransition currentCard d "task" with
      | .error e => throw (.taskTransition e)
      | .ok () => pure ()
      if d.priority.isSome then throw .directPriorityNotAllowed
      if d.sprint.isSome then
        match validateSprintExists env d.sprint with
        | .error .noSprints => throw .noSprintsInProject
        | .error (.notFound s av) => throw (.sprintNotFound s av)
        | .ok () => pure ()
      pure d
    else pure updates1
  let updates3 ←
    match updates2.commits with
    | some cs =>
      if ty = "task" || ty = "bug" then do
        let v := validateCommitsField cs
        if !v.1 then throw (.invalidCommits v.2)
        pure { updates2 with commits := some (appendCommitsToCard currentCard cs) }
      else pure updates2
    | none => pure updates2
  let updates4 ←
    if ty = "task" then
      match updates3.implementationPlan with
      | some pv =>
        match migrateImplementationPlan (some pv) with
        | some migratedPlan => do
          let v := validateImplementationPlan (some (.obj migratedPlan))
          if !v.1 then throw (.invalidPlan v.2)
          pure { updates3 with implementationPlan := some (.obj migratedPlan) }
        | none => pure updates3
      | none => pure updates3
    else pure updates3
  let stepped := if ty = "task" then planStatusStep currentCard updates4 else (updates4, [])
  let updates5 := stepped.1
  let warnings1 := stepped.2
  let warnings2 := if ty = "bug" && updates5.status == some "Fixed" then ["VERSION_REMINDER"] else []
  let updates6 := if ty = "task" then sprintAutoAssignStep env currentCard updates5 else updates5
  let updates7 := if ty = "task" then startDateStep env currentCard updates6 else updates6
  let updates8 := if ty = "task" then priorityStep env currentCard updates7 else updates7
  let updates9 := { updates8 with updatedAt := some env.nowIso, updatedBy := some "geniova-mcp" }
  pure (mergeCard currentCard updates9, warnings1 ++ warnings2)

/-! ### Card id components (`utils.js`) -/

/-- `SECTION_MAP[type]`. -/
def SECTION_MAP (ty : String) : Option String :=
  if ty = "task" then some "TASKS"
  else if ty = "bug" then some "BUGS"
  else if ty = "epic" then some "EPICS"
  else if ty = "sprint" then some "SPRINTS"
  else if ty = "proposal" then some "PROPOSALS"
  else if ty = "qa" then some "QA"
  else none

/-- `CARD_TYPE_MAP[type]`. -/
def CARD_TYPE_MAP (ty : String) : Option String :=
  if ty = "task" then some "task-card"
  else if ty = "bug" then some "bug-card"
  else if ty = "epic" then some "epic-card"
  else if ty = "proposal" then some "proposal-card"
  else if ty = "sprint" then some "sprint-card"
  else if ty = "qa" then some "qa-card"
  else none

/-- `GROUP_MAP[type]`. -/
def GROUP_MAP (ty : String) : Option String :=
  if ty = "task" then some "tasks"
  else if ty = "bug" then some "bugs"
  else if ty = "epic" then some "epics"
  else if ty = "proposal" then some "proposals"
  else if ty = "sprint" then some "sprints"
  else if ty = "qa" then some "qa"
  else none

/-- The vowels removed by `getAbbrId`'s regexes (both cases, as the `i`
flag does). -/
def isVowelChar (c : Char) : Bool :=
  ("AEIOUÁÉÍÓÚÜaeiouáéíóúü".toList).contains c

/-- `padStart(n, c)`. -/
def padStartStr (s : String) (n : Nat) (c : Char) : String :=
  String.mk (List.replicate (n - s.length) c) ++ s

/-- The trailing digit run of `s` (`match(/\d+$/)`, `""` for no match). -/
def trailingDigits (s : String) : String :=
  String.mk ((s.toList.reverse.takeWhile charIsDigit).reverse)

/-- `getAbbrId(wordToAbbr)`: the 3-character section abbreviation (special
cases, short words padded with `_`, else consonant extraction).  Faithful
for ASCII inputs (the section names); `toUpper` on accented letters is the
identity here where JS uppercases them, noted because no such input
occurs. -/
def getAbbrId (wordToAbbr : String) : String :=
  let upperWord := jsTrim (jsToUpper wordToAbbr)
  if upperWord = "BUGS" then "BUG"
  else if upperWord = "CINEMA4D" then "C4D"
  else if upperWord = "EXTRANET V1" then "EX1"
  else if upperWord = "EXTRANET V2" then "EX2"
  else if upperWord.length ≤ 3 then padStartStr upperWord 3 '_'
  else
    let consonants := upperWord.toList.filter
      (fun c => !(isVowelChar c || charIsWs c || charIsDigit c))
    let vowels := upperWord.toList.filter isVowelChar
    let lastNumber := trailingDigits upperWord
    if lastNumber ≠ "" && consonants.length ≥ 3 then
      String.mk (consonants.take 2) ++ lastNumber
    else if consonants.length ≥ 3 then String.mk (consonants.take 3)
    else if consonants.length = 2 then
      String.mk consonants ++ String.mk [vowels.headD '_']
    else if consonants.length = 1 then
      String.mk [consonants.headD '_'] ++ String.mk [vowels.headD '_'] ++
        String.mk [(vowels.getLast?).getD '_']
    else String.mk (upperWord.toList.take 3)

/-! ### The create pipeline (`createCard`) -/

/-- The structured content of every error `createCard` can throw. -/
inductive CreateError
  | invalidEntityId (field : String) (value : String)
  | invalidPlan (errors : List String)
  | invalidBugStatus (value : String) (valid : List String)
  | invalidBugPriority (value : PriorityVal) (valid : List String)
  | invalidTaskStatus (value : String) (valid : List String)
  | invalidTaskPriority (value : PriorityVal)
  | missingDescriptionStructured
  | incompleteStoryItem (index : Nat)
  | missingAcceptanceCriteria
  | emptyScenario (index : Nat)
  | epicRequired (available : List (String × String))
  | epicNotFound (epic : String) (available : List (String × String))
  | directPriorityNotAllowed
  | noSprintsInProject
  | sprintNotFound (sprint : String) (available : List (String × String))
  | noValidatorAssignable (stakeholders : List String)
  | noStakeholdersInProject
  | noAbbreviation
deriving DecidableEq, Repr

/-- The arguments of `createCard`, as destructured by the source. -/
structure CreateArgs where
  projectId : String := ""
  type : String := "task"
  title : Option String := none
  description : Option String := none
  descriptionStructured : Option (List StoryItem) := none
  acceptanceCriteria : Option String := none
  acceptanceCriteriaStructured : Option (List Scenario) := none
  epic : Option String := none
  implementationPlan : Option PlanVal := none
  status : Option String := none
  priority : Option PriorityVal := none
  developer : Option String := none
  codeveloper : Option String := none
  validator : Option String := none
  sprint : Option String := none
  devPoints : Option Nat := none
  businessPoints : Option Nat := none
  year : Option Nat := none
deriving DecidableEq, Repr

/-- A project stakeholder as assembled by `resolveValidator`
(`{ id, name, email }` with `|| ''` defaults). -/
structure ProjectStakeholder where
  id : String
  name : String
  email : String
deriving DecidableEq, Repr

/-- `resolveValidator(db, projectId, validator, developer)`: an explicit
truthy validator is returned unchanged; otherwise the developer matched by
email against the project's active stakeholders, then the stakeholder
named Mánu Fosela, then an error carrying the candidate ids (or the
distinct no-stakeholders error). -/
def resolveValidator (env : Env) (validator developer : Option String) :
    Except CreateError String :=
  if truthyStr validator then .ok (validator.getD "")
  else
    let projectStakeholders : List ProjectStakeholder :=
      (env.stakeholdersData.filter (fun p =>
        jsStartsWith p.1 "stk_" && p.2.active ≠ some false && env.projectStkIds.contains p.1)).map
        (fun p => ⟨p.1, (p.2.name).getD "", (p.2.email).getD ""⟩)
    let byDeveloper : Option ProjectStakeholder :=
      if truthyStr developer then
        match env.developersEmail.find? (fun d => d.1 == developer.getD "") with
        | some dev =>
          match dev.2 with
          | some email =>
            if email ≠ "" then projectStakeholders.find? (fun s => s.email == email) else none
          | none => none
        | none => none
      else none
    match byDeveloper with
    | some s => .ok s.id
    | none =>
      match projectStakeholders.find? (fun s => s.name == "Mánu Fosela") with
      | some s => .ok s.id
      | none =>
        if projectStakeholders.length > 0 then
          .error (.noValidatorAssignable (projectStakeholders.map (·.id)))
        else .error .noStakeholdersInProject

/-- The markdown description generated from `descriptionStructured`. -/
def storyMarkdown (items : List StoryItem) : String :=
  String.intercalate "\n\n" (items.map (fun item =>
    "**Como** " ++ (item.role).getD "" ++ "\n**Quiero** " ++ (item.goal).getD "" ++
    "\n**Para** " ++ (item.benefit).getD ""))

/-- The available-epics summary built by `createCard` for its messages. -/
def availableEpics (env : Env) : List (String × String) :=
  ((env.epicsData).getD []).map (fun e => ((e.cardId).getD "", (e.title).getD ""))

/-- `createCard`: codeveloper auto-assignment, entity ids, plan validation
(tasks), type-specific vocabulary validation of `{status, priority}`
(whose canonicalization the source then discards: the raw values feed
`applyTypeDefaults`), task-only gates (structured description, acceptance
criteria, epic existence, direct-priority rejection, sprint existence,
validator resolution), project abbreviation, the minted card id, and the
assembled card record. -/
def createCard (env : Env) (args : CreateArgs) : Except CreateError Card := do
  let codeveloper :=
    match env.mcpUserDeveloperId with
    | some d =>
      if args.developer == some "dev_016" && !truthyStr args.codeveloper &&
          d ≠ "" && d ≠ "dev_016" then some d
      else args.codeveloper
    | none => args.codeveloper
  match validateEntityIds { developer := args.developer, codeveloper := codeveloper,
                            validator := args.validator } with
  | .error fv => throw (.invalidEntityId fv.1 fv.2)
  | .ok () => pure ()
  if args.type = "task" && truthyPlanVal args.implementationPlan then
    let v := validateImplementationPlan args.implementationPlan
    if !v.1 then throw (.invalidPlan v.2)
  let initialData : Card := { status := args.status, priority := args.priority }
  if args.type = "bug" then
    match validateBugFields env initialData with
    | .error (.invalidBugStatus v l) => throw (.invalidBugStatus v l)
    | .error (.invalidBugPriority v l) => throw (.invalidBugPriority v l)
    | _ => pure ()
  else pure ()
  let validator ←
    if args.type = "task" then do
      match validateTaskFields env initialData with
      | .error (.invalidTaskStatus v l) => throw (.invalidTaskStatus v l)
      | .error (.invalidTaskPriority v) => throw (.invalidTaskPriority v)
      | _ => pure ()
      match args.descriptionStructured with
      | none => throw .missingDescriptionStructured
      | some items =>
        if items.length = 0 then throw .missingDescriptionStructured
        match (items.enum).find? (fun p =>
            !(truthyStr p.2.role && truthyStr p.2.goal && truthyStr p.2.benefit)) with
        | some p => throw (.incompleteStoryItem p.1)
        | none => pure ()
      let hasAcceptanceCriteria :=
        (match args.acceptanceCriteria with
         | some ac => ac ≠ "" && jsTrim ac ≠ ""
         | none => false) ||
        (match args.acceptanceCriteriaStructured with
         | some acs => acs.length > 0
         | none => false)
      if !hasAcceptanceCriteria then throw .missingAcceptanceCriteria
      match args.acceptanceCriteriaStructured with
      | some acs =>
        match (acs.enum).find? (fun p =>
            let hasGherkin := truthyStr p.2.given || truthyStr p.2.when || truthyStr p.2.then'
            let hasRaw := truthyStr p.2.raw && jsTrim (p.2.raw.getD "") ≠ ""
            !(hasGherkin || hasRaw)) with
        | some p => throw (.emptyScenario p.1)
        | none => pure ()
      | none => pure ()
      match args.epic with
      | none => throw (.epicRequired (availableEpics env))
      | some e =>
        if jsTrim e = "" then throw (.epicRequired (availableEpics env))
        if !(availableEpics env).any (fun p => p.1 == e) then
          throw (.epicNotFound e (availableEpics env))
      if args.priority.isSome then throw .directPriorityNotAllowed
      match validateSprintExists env args.sprint with
      | .error .noSprints => throw .noSprintsInProject
      | .error (.notFound s av) => throw (.sprintNotFound s av)
      | .ok () => pure ()
      match resolveValidator env args.validator args.developer with
      | .ok v => pure (some v)
      | .error e => throw e
    else pure args.validator
  let projectAbbr ←
    match env.projectAbbr with
    | some a => if a = "" then throw CreateError.noAbbreviation else pure a
    | none => throw CreateError.noAbbreviation
  let sectionAbbr := getAbbrId ((SECTION_MAP args.type).getD "")
  let counterKey := projectAbbr ++ "-" ++ sectionAbbr
  let newId := env.lastId + 1
  let cardId := counterKey ++ "-" ++ padStartStr (toString newId) 4 '0'
  let dataWithDefaults := applyTypeDefaults env.today args.type
    { status := args.status, priority := args.priority }
  let finalDescription :=
    match args.descriptionStructured with
    | some items =>
      if items.length > 0 then
        storyMarkdown items ++
          (match args.description with
           | some d => if d ≠ "" then "\n\n" ++ d else ""
           | none => "")
      else (args.description).getD ""
    | none => (args.description).getD ""
  let base : Card :=
    { cardId := some cardId,
      cardType := CARD_TYPE_MAP args.type,
      group := GROUP_MAP args.type,
      projectId := some args.projectId,
      title := args.title,
      description := some finalDescription,
      status := dataWithDefaults.status,
      priority := dataWithDefaults.priority,
      year := some (jsOrNat ((args.year).getD 0) env.currentYear),
      createdAt := some env.nowIso,
      createdBy := some "geniova-mcp",
      firebaseId := some env.newKey }
  let c1 :=
    match args.descriptionStructured with
    | some items => if items.length > 0 then { base with descriptionStructured := some items } else base
    | none => base
  let c2 :=
    match args.acceptanceCriteria with
    | some ac => if ac ≠ "" && jsTrim ac ≠ "" then { c1 with acceptanceCriteria := some ac } else c1
    | none => c1
  let c3 :=
    match args.acceptanceCriteriaStructured with
    | some acs => if acs.length > 0 then { c2 with acceptanceCriteriaStructured := some acs } else c2
    | none => c2
  let c4 := if truthyStr args.epic then { c3 with epic := args.epic } else c3
  let c5 :=
    if args.type = "task" && truthyPlanVal args.implementationPlan then
      match args.implementationPlan with
      | some (.obj p) =>
        { c4 with implementationPlan := some (.obj { p with
            steps := some ((p.steps).getD []),
            planStatus := some (jsOrStr ((p.planStatus).getD "") "pending") }) }
      | some (.str _) =>
        -- the spread of a string contributes no named fields, so only the
        -- `steps` and `planStatus` defaults survive in the stored object
        { c4 with implementationPlan := some (.obj { steps := some [], planStatus := some "pending" }) }
      | none => c4
    else c4
  let c6 :=
    if args.type = "bug" && truthyStr dataWithDefaults.registerDate then
      { c5 with registerDate := dataWithDefaults.registerDate }
    else c5
  let c7 := if truthyStr args.developer then { c6 with developer := args.developer } else c6
  let c8 := if truthyStr codeveloper then { c7 with codeveloper := codeveloper } else c7
  let c9 := if truthyStr validator then { c8 with validator := validator } else c8
  let c10 := if truthyStr args.sprint then { c9 with sprint := args.sprint } else c9
  let c11 := match args.devPoints with
    | some n => { c10 with devPoints := some n }
    | none => c10
  let c12 := match args.businessPoints with
    | some n => { c11 with businessPoints := some n }
    | none => c11
  let c13 :=
    if args.type = "task" && (args.devPoints).getD 0 ≠ 0 && (args.businessPoints).getD 0 ≠ 0 then
      let scoringSystem := jsOrStr ((env.scoringSystem).getD "") "1-5"
      match calculatePriority ((args.businessPoints).getD 0) ((args.devPoints).getD 0) scoringSystem with
      | some p => { c12 with priority := some (.num p) }
      | none => c12
    else c12
  pure c13

/-! ### Concrete fixtures for the theorems -/

/-- A project with one sprint whose status is `Active`. -/
def envActiveSprint : Env :=
  { sprintsData := some [{ firebaseId := "sprint1", cardId := some "PLN-SPR-0001",
                           title := some "Sprint 1", status := some "Active" }],
    today := "2026-10-12", nowIso := "2026-10-12T09:00:00.000Z" }

/-- A To Do task that carries every field required to leave To Do except a
sprint. -/
def taskNoSprint : Card :=
  { cardId := some "PLN-TSK-0001", title := some "Test Task", status := some "To Do",
    developer := some "dev_001", validator := some "stk_001", epic := some "PLN-EPC-0001",
    devPoints := some 2, businessPoints := some 5, acceptanceCriteria := some "works" }

/-- A task sitting in To Validate. -/
def taskToValidate : Card := { status := some "To Validate" }

/-- A bug in `Fixed` carrying commits and a root cause but no resolution. -/
def bugFixedPartial : Card :=
  { status := some "Fixed",
    commits := some [{ hash := "abc123", message := "fix", date := "2026-10-01", author := "dev" }],
    rootCause := some "off-by-one" }

/-- A bug already in `Closed` with none of the closing documentation. -/
def bugClosedBare : Card := { status := some "Closed" }

/-- The environment for the creation scenario: one existing epic, one
project stakeholder, an abbreviation and a counter. -/
def envCreate : Env :=
  { epicsData := some [{ cardId := some "PLN-EPC-0001", title := some "Reporting" }],
    projectAbbr := some "PLN", lastId := 6, newKey := "k1",
    today := "2026-10-12", nowIso := "2026-10-12T09:00:00.000Z", currentYear := 2026 }

/-- The creation arguments of the end-to-end scenario: structured
description, acceptance criteria, an existing epic, an explicit validator,
and no point fields. -/
def argsScenario : CreateArgs :=
  { projectId := "Planning", type := "task", title := some "Export data",
    descriptionStructured := some [{ role := some "user", goal := some "export data",
                                     benefit := some "share reports" }],
    acceptanceCriteria := some "works", epic := some "PLN-EPC-0001",
    validator := some "stk_001" }

/-- Commits used by the commit-union witness. -/
def commitA : Commit := { hash := "a1", message := "m1", date := "2026-10-01", author := "d1" }

/-- Second commit of the first batch. -/
def commitB : Commit := { hash := "b2", message := "m2", date := "2026-10-02", author := "d2" }

/-- The commit shared between the two batches, resubmitted with a new
message. -/
def commitB' : Commit := { hash := "b2", message := "m2 reworded", date := "2026-10-03", author := "d2" }

/-- Third commit, only in the second batch. -/
def commitC : Commit := { hash := "c3", message := "m3", date := "2026-10-03", author := "d3" }

/-- A card with no fields set (in particular, no commits). -/
def emptyCard : Card := {}

/-- `Except` success test (Boolean). -/
def exceptIsOk : Except ε α → Bool
  | .ok _ => true
  | .error _ => false

end PlanningGame

deriving instance DecidableEq for Except

unseal Rat.mul Rat.inv

namespace PlanningGame

/-! ### Theorems -/

/-- **C6.** For both scales the priority table has exactly `|scale|²`
entries (25 and 36), the assigned priorities are exactly the contiguous
sequence `1..|scale|²` (hence a contiguous permutation), every ratio is
bounded by the ratio of the max-business/min-effort pairing, which has
priority 1, and by the ratio of the min-business/max-effort pairing,
which has priority `|scale|²`. -/
theorem priorityMap_counts_ranks_extremes :
    (PRIORITY_MAP_1_5.length = 25 ∧ PRIORITY_MAP_FIBONACCI.length = 36) ∧
    (PRIORITY_MAP_1_5.map PMEntry.priority = List.range' 1 25 ∧
     PRIORITY_MAP_FIBONACCI.map PMEntry.priority = List.range' 1 36) ∧
    (PRIORITY_MAP_1_5.all (fun e => decide (e.ratio ≤ 500)) = true ∧
     (PRIORITY_MAP_1_5.find? (fun e => e.biz == 5 && e.dev == 1)).map PMEntry.priority = some 1 ∧
     PRIORITY_MAP_1_5.all (fun e => decide (20 ≤ e.ratio)) = true ∧
     (PRIORITY_MAP_1_5.find? (fun e => e.biz == 1 && e.dev == 5)).map PMEntry.priority = some 25) ∧
    (PRIORITY_MAP_FIBONACCI.all (fun e => decide (e.ratio ≤ 1300)) = true ∧
     (PRIORITY_MAP_FIBONACCI.find? (fun e => e.biz == 13 && e.dev == 1)).map PMEntry.priority = some 1 ∧
     PRIORITY_MAP_FIBONACCI.all (fun e => decide ((100 : ℚ) / 13 ≤ e.ratio)) = true ∧
     (PRIORITY_MAP_FIBONACCI.find? (fun e => e.biz == 1 && e.dev == 13)).map PMEntry.priority = some 36) := by
  decide

/-- **C7 (counterexample).** `calculatePriority(5, 2, '1-5')` does not
return rank 2: the claim's rank is wrong. -/
theorem calculatePriority_5_2_not_rank2 : calculatePriority 5 2 "1-5" ≠ some 2 := by decide

/-- **C7 (amended).** `calculatePriority(5, 2, '1-5')` (ratio 250%) returns
rank 4: exactly the three pairings 5/1 (500%), 4/1 (400%) and 3/1 (300%)
outrank it. -/
theorem calculatePriority_5_2_rank4 :
    calculatePriority 5 2 "1-5" = some 4 ∧
    (PRIORITY_MAP_1_5.filter (fun e => decide ((250 : ℚ) < e.ratio))).map (fun e => (e.biz, e.dev))
      = [(5, 1), (4, 1), (3, 1)] := by decide

/-- **C1.** A `To Do` task with every required field except `sprint`,
updated to `In Progress` while the project has an `Active` sprint, is
rejected with the missing-required-fields error naming `Sprint`: the
sprint auto-assignment is ordered after `validateStatusTransition`, so the
active sprint is never injected, although `getActiveSprint` would find
one. -/
theorem updateCard_todo_noSprint_rejected_despite_activeSprint :
    getActiveSprint envActiveSprint =
      some { firebaseId := "sprint1", cardId := some "PLN-SPR-0001",
             title := some "Sprint 1", status := some "Active" } ∧
    updateCard envActiveSprint "task" taskNoSprint { status := some "In Progress" } =
      .error (.taskTransition (.missingToLeaveTodo "In Progress" ["Sprint"])) := by decide

/-- **C5.** The code's own transition table allows only `Reopened` from
`To Validate`, but `validateStatusTransition` accepts `To Validate → In
Progress` and `To Validate → To Do`; only `Done&Validated` is rejected,
with the validator-only error. -/
theorem toValidate_transitions_not_enforced :
    ((TASK_TRANSITION_RULES.find? (fun p => p.1 == "To Validate")).map
        (fun p => p.2.allowedTransitions) = some ["Reopened"]) ∧
    validateStatusTransition taskToValidate { status := some "In Progress" } "task" = .ok () ∧
    validateStatusTransition taskToValidate { status := some "To Do" } "task" = .ok () ∧
    validateStatusTransition taskToValidate { status := some "Done&Validated" } "task" =
      .error (.validatorOnly "Done&Validated") := by decide

/-- **C9 (counterexample).** For the valid kind `taskStatus`, a missing
(`null`) or empty backing snapshot does not fail with an empty-source
error: the loader silently returns the hardcoded fallback list. -/
theorem loadList_missing_data_falls_back :
    loadListFromFirebase "taskStatus" none = .ok FALLBACK_taskStatus ∧
    loadListFromFirebase "taskStatus" (some []) = .ok FALLBACK_taskStatus := by decide

/-- **C9 (amended).** A key outside the fixed set of kinds fails with the
unknown-list-kind error; for a valid kind a missing or empty snapshot
silently yields the hardcoded fallback list (no error), and non-empty data
is returned as-is. -/
theorem loadList_unknownKind_and_fallback :
    (∀ k data, LIST_PATHS k = none →
      loadListFromFirebase k data = .error ("Unknown list type: " ++ k)) ∧
    (∀ k data, LIST_PATHS k ≠ none → (data = none ∨ data = some []) →
      loadListFromFirebase k data = .ok (FALLBACK_LISTS k)) ∧
    (∀ k l, LIST_PATHS k ≠ none → l ≠ [] → loadListFromFirebase k (some l) = .ok l) := by
  refine ⟨?_, ?_, ?_⟩
  · intro k data h
    simp [loadListFromFirebase, h]
  · intro k data h hd
    cases hp : LIST_PATHS k with
    | none => exact absurd hp h
    | some p =>
      rcases hd with rfl | rfl <;> simp [loadListFromFirebase, hp]
  · intro k l h hl
    cases hp : LIST_PATHS k with
    | none => exact absurd hp h
    | some p =>
      simp [loadListFromFirebase, hp, List.length_pos.mpr hl]

/-- **C9 (witness).** The amended statement applied to the unknown kind
`statuses`, to `taskStatus` with a missing snapshot, and to `bugStatus`
with one stored entry. -/
theorem loadList_unknownKind_and_fallback_witness :
    loadListFromFirebase "statuses" none = .error ("Unknown list type: " ++ "statuses") ∧
    loadListFromFirebase "taskStatus" none = .ok (FALLBACK_LISTS "taskStatus") ∧
    loadListFromFirebase "bugStatus" (some [("Created", 1)]) = .ok [("Created", 1)] :=
  ⟨loadList_unknownKind_and_fallback.1 "statuses" none (by decide),
   loadList_unknownKind_and_fallback.2.1 "taskStatus" none (by decide) (Or.inl rfl),
   loadList_unknownKind_and_fallback.2.2 "bugStatus" [("Created", 1)] (by decide) (by decide)⟩

/-- **C10.** The bug-closing documentation gate is evaluated only when the
proposed status is `Closed` and differs from the current one: an update
that omits the status or repeats the current status (including `Closed` on
an already-Closed bug) passes the gate with no check of commits, rootCause
or resolution, and conversely the closing error can only arise on a
`Closed` proposal that differs from the current status. -/
theorem bugClosingGate_only_on_status_change (cur upd : Card) :
    (upd.status = none ∨ upd.status = cur.status → validateBugStatusTransition cur upd = .ok ()) ∧
    (∀ missing, validateBugStatusTransition cur upd = .error (.cannotClose missing) →
      upd.status = some "Closed" ∧ cur.status ≠ some "Closed") := by
  constructor
  · intro h
    rcases h with h | h
    · simp [validateBugStatusTransition, h]
    · cases hs : upd.status with
      | none => simp [validateBugStatusTransition, hs]
      | some s =>
        rw [hs] at h
        by_cases hse : s = ""
        · simp [validateBugStatusTransition, hs, hse]
        · simp [validateBugStatusTransition, hs, hse, h.symm]
  · intro missing h
    cases hs : upd.status with
    | none => rw [validateBugStatusTransition, hs] at h; exact absurd h (by simp)
    | some s =>
      rw [validateBugStatusTransition, hs] at h
      by_cases h1 : s = ""
      · simp [h1] at h
      · by_cases h2 : cur.status = some s
        · simp [h1, h2] at h
        · by_cases h3 : s = "Closed"
          · subst h3; exact ⟨rfl, h2⟩
          · simp [h1, h2, h3] at h

/-- **C10 (witness).** The theorem applied to an already-Closed bug with
no closing documentation whose update repeats `Closed`: the gate passes. -/
theorem bugClosingGate_only_on_status_change_witness :
    validateBugStatusTransition bugClosedBare { status := some "Closed" } = .ok () :=
  (bugClosingGate_only_on_status_change bugClosedBare { status := some "Closed" }).1 (Or.inr rfl)

/-- **C3.** A bug update proposing `Closed` from a different status passes
the closing gate exactly when the merged record has a non-empty commits
list, a non-blank rootCause and a non-blank resolution (each may come from
the current record or the update); when it fails, the missing-fields list
contains each of the three phrases exactly when that field is missing, and
nothing else. -/
theorem bugClose_requires_docs (cur upd : Card)
    (hupd : upd.status = some "Closed") (hcur : cur.status ≠ some "Closed") :
    (validateBugStatusTransition cur upd = .ok () ↔
      ((mergeCard cur upd).commits.getD [] ≠ [] ∧
       blankOpt (mergeCard cur upd).rootCause = false ∧
       blankOpt (mergeCard cur upd).resolution = false)) ∧
    (∀ missing, validateBugStatusTransition cur upd = .error (.cannotClose missing) →
      (("commits (list of commits that fixed the bug)" ∈ missing ↔
          (mergeCard cur upd).commits.getD [] = []) ∧
       ("rootCause (why the bug occurred)" ∈ missing ↔
          blankOpt (mergeCard cur upd).rootCause = true) ∧
       ("resolution (how the bug was fixed)" ∈ missing ↔
          blankOpt (mergeCard cur upd).resolution = true) ∧
       ∀ m ∈ missing,
         m = "commits (list of commits that fixed the bug)" ∨
         m = "rootCause (why the bug occurred)" ∨
         m = "resolution (how the bug was fixed)")) := by
  have hne : ("Closed" : String) ≠ "" := by decide
  by_cases hc : (mergeCard cur upd).commits.getD [] = [] <;>
    by_cases hr : blankOpt (mergeCard cur upd).rootCause <;>
      by_cases hres : blankOpt (mergeCard cur upd).resolution <;>
        constructor <;>
          simp_all [validateBugStatusTransition, hupd, hne, hcur,
            List.length_pos, List.isEmpty_iff]

/-- **C3 (witness).** A bug in `Fixed` carrying commits and a rootCause,
closed by an update supplying only the resolution, passes the gate: the
three fields come from a mix of the record and the update. -/
theorem bugClose_requires_docs_witness :
    validateBugStatusTransition bugFixedPartial
      { status := some "Closed", resolution := some "fixed it" } = .ok () :=
  (bugClose_requires_docs bugFixedPartial
      { status := some "Closed", resolution := some "fixed it" } rfl (by decide)).1.mpr
    (by decide)

/-- **C2 (counterexample).** A `To Do` task whose merged record is missing
`developer` (among others), updated to the different status
`Done&Validated`, is rejected with the validator-only error, which names
no missing fields: the rejection does not list the missing ones. -/
theorem todo_doneValidated_rejection_lists_no_fields :
    hasValidValue (mergeCard { status := some "To Do" } { status := some "Done&Validated" })
      "developer" = false ∧
    validateStatusTransition { status := some "To Do" } { status := some "Done&Validated" }
      "task" = .error (.validatorOnly "Done&Validated") := by decide

/-- **C2 (amended).** For a task in `To Do` and an update proposing a
non-empty status other than `To Do` and other than the validator-only
`Done&Validated`, if any field of the required set is missing in the
merged record, the update is rejected with the missing-required-fields
error listing exactly the missing fields (under their friendly names);
proposing `Done&Validated` is instead rejected with the validator-only
error regardless of missing fields. -/
theorem leaveTodo_missing_fields_rejection (cur upd : Card) (ns : String)
    (hcur : cur.status = some "To Do")
    (hupd : upd.status = some ns)
    (hne : ns ≠ "To Do")
    (hvo : ns ≠ "Done&Validated")
    (hnz : ns ≠ "")
    (hmiss : REQUIRED_FIELDS_TO_LEAVE_TODO.filter
        (fun f => !hasValidValue (mergeCard cur upd) f) ≠ []) :
    validateStatusTransition cur upd "task" =
      .error (.missingToLeaveTodo ns
        ((REQUIRED_FIELDS_TO_LEAVE_TODO.filter
            (fun f => !hasValidValue (mergeCard cur upd) f)).map friendlyName)) := by
  have hn : normalizeStatus "To Do" = "todo" := by decide
  have hcs : cur.status ≠ some ns := by
    rw [hcur]
    intro h
    exact hne (Option.some_injective _ h).symm
  simp [validateStatusTransition, hupd, hnz, hcs, hcur, hn, hne, hvo, Ne.symm hne,
    VALIDATOR_ONLY_STATUSES, hmiss, List.isEmpty_iff]

/-- **C2 (witness).** The amended statement applied to a bare `To Do` task
moved to `In Progress`: all eight required fields are reported, under
their friendly names. -/
theorem leaveTodo_missing_fields_rejection_witness :
    validateStatusTransition { status := some "To Do" } { status := some "In Progress" } "task" =
      .error (.missingToLeaveTodo "In Progress"
        ["Title", "Developer", "Validator", "Epic", "Sprint", "Dev Points", "Business Points",
         "Acceptance Criteria"]) := by
  have h := leaveTodo_missing_fields_rejection { status := some "To Do" }
    { status := some "In Progress" } "In Progress" rfl rfl (by decide) (by decide) (by decide)
    (by decide)
  exact h.trans (by decide)

/-- Splitting a filter by a predicate and its negation partitions the
length. -/
theorem length_filter_add_length_filter_not (p : α → Bool) (l : List α) :
    (l.filter p).length + (l.filter (fun a => !(p a))).length = l.length := by
  induction l with
  | nil => rfl
  | cons a l ih =>
    by_cases h : p a <;> simp [List.filter_cons, h, ← ih] <;> omega

/-- **C8.** The commit union never drops a stored commit (the existing
list is always a prefix of the result), and across two sequential commit
updates on a card without commits whose batches have internally distinct
hashes and exactly one overlapping hash, the final list has pairwise
distinct hashes and length `|u1| + |u2| - 1`. -/
theorem commits_union_by_hash (card : Card) (u1 u2 : List Commit)
    (hcard : card.commits.getD [] = [])
    (h1 : (u1.map Commit.hash).Nodup)
    (h2 : (u2.map Commit.hash).Nodup)
    (hover : (u2.filter (fun c => (u1.map Commit.hash).contains c.hash)).length = 1) :
    (∀ (c : Card) (nc : List Commit), c.commits.getD [] <+: appendCommitsToCard c nc) ∧
    ((appendCommitsToCard { card with commits := some (appendCommitsToCard card u1) }
        u2).map Commit.hash).Nodup ∧
    (appendCommitsToCard { card with commits := some (appendCommitsToCard card u1) }
        u2).length = u1.length + u2.length - 1 := by
  have hpre : ∀ (c : Card) (nc : List Commit), c.commits.getD [] <+: appendCommitsToCard c nc := by
    intro c nc
    unfold appendCommitsToCard
    by_cases h : nc.isEmpty
    · simp [h]
    · simp only [h, if_false, Bool.false_eq_true]
      exact List.prefix_append _ _
  have hu1 : u1 ≠ [] := by
    intro h
    subst h
    simp at hover
  have hu2 : u2 ≠ [] := by
    intro h
    subst h
    simp at hover
  have hr1 : appendCommitsToCard card u1 = u1 := by
    unfold appendCommitsToCard
    rw [hcard]
    simp [List.isEmpty_iff, hu1]
  have hr2 : appendCommitsToCard { card with commits := some u1 } u2 =
      u1 ++ u2.filter (fun c => !((u1.map Commit.hash).contains c.hash)) := by
    unfold appendCommitsToCard
    simp [List.isEmpty_iff, hu2]
  rw [hr1]
  refine ⟨hpre, ?_, ?_⟩
  · rw [hr2, List.map_append]
    rw [List.nodup_append]
    refine ⟨h1, ?_, ?_⟩
    · exact h2.sublist ((List.filter_sublist u2).map Commit.hash)
    · intro a ha hb
      rcases List.mem_map.mp hb with ⟨c, hcmem, hchash⟩
      have hcf := List.of_mem_filter hcmem
      rw [hchash] at hcf
      have : a ∉ u1.map Commit.hash := by simpa using hcf
      exact this ha
  · rw [hr2, List.length_append]
    have hsplit := length_filter_add_length_filter_not
      (fun c => (u1.map Commit.hash).contains c.hash) u2
    rw [hover] at hsplit
    omega

/-- **C8 (witness).** Two batches `[a1, b2]` then `[b2, c3]` on a card
without commits: the final list has distinct hashes and length 3. -/
theorem commits_union_by_hash_witness :
    ((appendCommitsToCard { emptyCard with
        commits := some (appendCommitsToCard emptyCard [commitA, commitB]) }
        [commitB', commitC]).map Commit.hash).Nodup ∧
    (appendCommitsToCard { emptyCard with
        commits := some (appendCommitsToCard emptyCard [commitA, commitB]) }
        [commitB', commitC]).length = 3 := by
  have h := commits_union_by_hash emptyCard [commitA, commitB] [commitB', commitC]
    (by decide) (by decide) (by decide) (by decide)
  exact ⟨h.2.1, h.2.2.trans (by decide)⟩

/-- The codeveloper auto-assignment never touches the priority field. -/
theorem autoAssignCodeveloper_priority (env : Env) (u : Card) :
    (autoAssignCodeveloper env u).priority = u.priority := by
  unfold autoAssignCodeveloper
  split
  · split
    · split <;> rfl
    · rfl
  · rfl

/-- `validateTaskFields` never changes the priority field of the record it
returns. -/
theorem validateTaskFields_ok_priority (env : Env) (d d' : Card)
    (h : validateTaskFields env d = .ok d') : d'.priority = d.priority := by
  unfold validateTaskFields at h
  split at h
  · exact absurd h (by simp)
  next d1 heq =>
    have hd1 : d1.priority = d.priority := by
      split at heq
      · injection heq with heq; rw [heq]
      · split at heq
        · injection heq with heq; rw [← heq]
        · exact absurd heq (by simp)
    split at h
    · injection h with h; rw [← h]; exact hd1
    · split at h
      · injection h with h; rw [← h]; exact hd1
      · exact absurd h (by simp)
    · exact absurd h (by simp)

/-- **C4 (counterexample).** The end-to-end creation without point fields
succeeds (the minted id is `PLN-TSK-0007`), but the stored priority is the
type default label `Medium`, not null/absent. -/
theorem createTask_noPoints_priority_is_Medium :
    (createCard envCreate argsScenario).map Card.cardId = .ok (some "PLN-TSK-0007") ∧
    (createCard envCreate argsScenario).map Card.priority = .ok (some (.str "Medium")) := by
  decide

/-- **C4 (amended).** A task created without both point fields stores the
type-default priority label `Medium` (not null); a directly supplied
priority is rejected at creation with the direct-priority error; with both
point fields the stored priority is the Priority Calculator's rank; and a
task update carrying any direct priority can never succeed. -/
theorem task_priority_never_supplied_directly :
    ((createCard envCreate argsScenario).map Card.priority = .ok (some (.str "Medium"))) ∧
    (createCard envCreate { argsScenario with priority := some (.str "High") } =
      .error .directPriorityNotAllowed) ∧
    ((createCard envCreate { argsScenario with devPoints := some 2, businessPoints := some 5 }).map
        Card.priority = .ok (some (.num 4))) ∧
    (∀ (env : Env) (cur upd : Card), upd.priority.isSome →
      exceptIsOk (updateCard env "task" cur upd) = false) := by
  refine ⟨by decide, by decide, by decide, ?_⟩
  intro env cur upd hp
  unfold updateCard
  cases hpf : (protectedFieldsInUpdate upd).head? with
  | some f => simp [exceptIsOk, throw, throwThe, MonadExceptOf.throw, Bind.bind, Except.bind]
  | none =>
    simp only [Bind.bind, Except.bind, pure, Except.pure]
    cases hev : validateEntityIds (autoAssignCodeveloper env upd) with
    | error fv => simp [exceptIsOk, throw, throwThe, MonadExceptOf.throw]
    | ok _ =>
      simp only [reduceIte]
      cases htf : validateTaskFields env (autoAssignCodeveloper env upd) with
      | error e => simp [exceptIsOk, throw, throwThe, MonadExceptOf.throw, Bind.bind, Except.bind]
      | ok d =>
        have hdp : d.priority.isSome := by
          rw [validateTaskFields_ok_priority env _ d htf, autoAssignCodeveloper_priority]
          exact hp
        cases hst : validateStatusTransition cur d "task" with
        | error e =>
          simp [exceptIsOk, throw, throwThe, MonadExceptOf.throw, Bind.bind, Except.bind, hst]
        | ok _ =>
          simp [exceptIsOk, throw, throwThe, MonadExceptOf.throw, Bind.bind, Except.bind, hst, hdp]

/-- **C4 (witness).** The update-side rejection applied to a concrete
update that sets a numeric priority directly. -/
theorem task_priority_never_supplied_directly_witness :
    exceptIsOk (updateCard envActiveSprint "task" taskNoSprint
      { priority := some (.num 1) }) = false :=
  task_priority_never_supplied_directly.2.2.2 envActiveSprint taskNoSprint
    { priority := some (.num 1) } (by decide)

end PlanningGame
